import Mathlib

/-!
Shallow embedding of the mirmex-helpdesk ticket lifecycle engine
(src/tickets/models.py, src/tickets/views.py, src/tickets/forms.py).

Timestamps are modelled as integers (seconds).  Actors are user ids
(`Nat`); nullable foreign keys are `Option Nat`.  Django model-method
exceptions (`ValidationError`) are modelled as typed errors; each
mutating operation returns the committed database state together with
an optional error.  In the source every `raise` happens before any
`save()` call, so on the error path the committed state is the input
state.
-/

namespace Helpdesk

/-- Ticket status values (`Tickets.STATUS_*` in src/tickets/models.py). -/
inductive Status where
  | new
  | assigned
  | inProgress
  | closed
deriving DecidableEq, Repr

/-- The ticket entity: the fields of `Tickets` (src/tickets/models.py)
that the lifecycle, visibility and SLA logic reads or writes. -/
structure Tickets where
  id : Nat
  reporter : Option Nat
  technician : Option Nat
  dueDate : Option Int
  createdAt : Int
  status : Status
  closedAt : Option Int
deriving DecidableEq, Repr

/-- `Tickets.ALLOWED_TRANSITIONS` (src/tickets/models.py lines 80-85). -/
def ALLOWED_TRANSITIONS : Status → List Status
  | .new => [.assigned, .closed]
  | .assigned => [.inProgress, .closed]
  | .inProgress => [.closed]
  | .closed => []

/-- `TicketHistory.ACTION_*` values (src/tickets/models.py). -/
inductive HistAction where
  | created
  | statusChanged
  | assigned
  | commented
  | edited
deriving DecidableEq, Repr

/-- One `TicketHistory` row: action, actor, and the old/new status
fields (blank in the source is modelled as `none`). -/
structure HistoryEntry where
  action : HistAction
  changedBy : Option Nat
  oldStatus : Option Status
  newStatus : Option Status
deriving DecidableEq, Repr

/-- Typed errors for the `ValidationError`s raised by the lifecycle
methods, distinguished by their message in the source. -/
inductive TicketError where
  | invalidTransition (fromStatus toStatus : Status)
  | missingTechnician
  | noTechnicianAssigned
deriving DecidableEq, Repr

/-- Result of a mutating operation: optional error plus the committed
ticket row and audit trail after the call. -/
structure OpResult where
  err : Option TicketError
  ticket : Tickets
  hist : List HistoryEntry
deriving DecidableEq, Repr

/-- `Tickets.change_status` (src/tickets/models.py lines 168-194):
validate against the transition table unless bypassing, set the status,
set `closed_at` on first close, save, and append one `status_changed`
history row when the status actually changed. -/
def change_status (t : Tickets) (h : List HistoryEntry) (newStatus : Status)
    (changedBy : Option Nat) (now : Int) (bypassValidation : Bool) : OpResult :=
  let oldStatus := t.status
  if bypassValidation = false ∧ newStatus ∉ ALLOWED_TRANSITIONS t.status then
    { err := some (.invalidTransition t.status newStatus), ticket := t, hist := h }
  else
    let t1 : Tickets := { t with status := newStatus }
    let t2 : Tickets :=
      if newStatus = .closed ∧ t1.closedAt = none then { t1 with closedAt := some now } else t1
    let h2 : List HistoryEntry :=
      if oldStatus ≠ newStatus then
        h ++ [{ action := .statusChanged, changedBy := changedBy,
                oldStatus := some oldStatus, newStatus := some newStatus }]
      else h
    { err := none, ticket := t2, hist := h2 }

/-- `Tickets.assign` (src/tickets/models.py lines 148-161): reject an
empty technician, set the technician in memory, run `change_status` to
`assigned` (whose `save()` commits the technician too), then append one
`assigned` history row.  If `change_status` raises, nothing was saved. -/
def assign (t : Tickets) (h : List HistoryEntry) (technician : Option Nat)
    (changedBy : Option Nat) (now : Int) (bypassValidation : Bool) : OpResult :=
  match technician with
  | none => { err := some .missingTechnician, ticket := t, hist := h }
  | some tech =>
    let mem : Tickets := { t with technician := some tech }
    let r := change_status mem h .assigned changedBy now bypassValidation
    match r.err with
    | some e => { err := some e, ticket := t, hist := h }
    | none =>
      { err := none, ticket := r.ticket,
        hist := r.hist ++ [{ action := .assigned, changedBy := changedBy,
                             oldStatus := none, newStatus := none }] }

/-- `Tickets.start_work` (src/tickets/models.py lines 163-166): reject
when no technician is assigned, otherwise delegate to `change_status`
towards `in_progress`. -/
def start_work (t : Tickets) (h : List HistoryEntry)
    (changedBy : Option Nat) (now : Int) (bypassValidation : Bool) : OpResult :=
  if t.technician = none then
    { err := some .noTechnicianAssigned, ticket := t, hist := h }
  else
    change_status t h .inProgress changedBy now bypassValidation

/-- `Tickets.close` (src/tickets/models.py lines 196-197): delegate to
`change_status` towards `closed`. -/
def close (t : Tickets) (h : List HistoryEntry)
    (changedBy : Option Nat) (now : Int) (bypassValidation : Bool) : OpResult :=
  change_status t h .closed changedBy now bypassValidation

/-- The superuser branch of `TicketUpdateForm.save` (src/tickets/forms.py
lines 84-97) combined with `TicketUpdateView.form_valid`
(src/tickets/views.py lines 404-419): direct overwrite of status,
technician and due date that bypasses transition validation, sets
`closed_at` on first close, and appends one `edited` history row when
the status differs from the prior value. -/
def admin_update (t : Tickets) (h : List HistoryEntry) (newStatus : Status)
    (newTechnician : Option Nat) (newDueDate : Option Int)
    (actor : Option Nat) (now : Int) : OpResult :=
  let t1 : Tickets := { t with status := newStatus, technician := newTechnician,
                               dueDate := newDueDate }
  let t2 : Tickets :=
    if newStatus = .closed ∧ t1.closedAt = none then { t1 with closedAt := some now } else t1
  let h2 : List HistoryEntry :=
    if t.status ≠ newStatus then
      h ++ [{ action := .edited, changedBy := actor,
              oldStatus := some t.status, newStatus := some newStatus }]
    else h
  { err := none, ticket := t2, hist := h2 }

/-- `Tickets.is_overdue` (src/tickets/models.py lines 199-202), with the
current time passed explicitly. -/
def is_overdue (t : Tickets) (now : Int) : Bool :=
  match t.dueDate with
  | some due => if t.status ≠ .closed then decide (now > due) else false
  | none => false

/-- Rounding of the exact fraction `num / den` (for `den ≠ 0`) half to
even, the behaviour of the Python built-in `round`.  The source computes
the ratio in floating point; the embedding computes the same ratio as an
exact fraction. -/
def round_half_even (num den : ℤ) : ℤ :=
  let n : ℤ := if den < 0 then -num else num
  let d : ℤ := if den < 0 then -den else den
  let f : ℤ := Int.fdiv n d
  let r2 : ℤ := 2 * (n - f * d)
  if r2 < d then f
  else if r2 > d then f + 1
  else if f % 2 = 0 then f else f + 1

/-- The SLA progress computation of `TicketDetailView.get_context_data`
(src/tickets/views.py lines 257-275): for a ticket with a due date that
is not closed, when `due_date - created_at > 0`, the elapsed percentage
`min(100, round(elapsed / total * 100))`; otherwise no value. -/
def sla_percent (t : Tickets) (now : Int) : Option ℤ :=
  match t.dueDate with
  | none => none
  | some due =>
    if t.status ≠ .closed then
      let totalSeconds : ℤ := due - t.createdAt
      let elapsedSeconds : ℤ := now - t.createdAt
      if totalSeconds > 0 then
        some (min 100 (round_half_even (elapsedSeconds * 100) totalSeconds))
      else none
    else none

/-- Written from the spec wording of `slaElapsedPercent(ticket, now)`
in §4.4, for comparison with `sla_percent` taken from the source: for an
open ticket with a due date the value
`min(100, round(100 * (now - created_at) / (due_date - created_at)))`,
undefined when the due date is unset or the ticket is closed. -/
def slaElapsedPercentSpec (t : Tickets) (now : Int) : Option ℤ :=
  match t.dueDate with
  | none => none
  | some due =>
    if t.status = .closed then none
    else
      some (min 100 (round_half_even (100 * (now - t.createdAt)) (due - t.createdAt)))

/-- The Django group names the views test membership of, as an
enumeration. -/
inductive GroupName where
  | admin
  | dispatcher
  | technician
  | reporter
deriving DecidableEq, Repr

/-- The role strings returned by `get_user_role`, as an enumeration. -/
inductive Role where
  | admin
  | dispatcher
  | technician
  | reporter
deriving DecidableEq, Repr

/-- An authenticated request user as the views see it: id, superuser
flag, and the names of the groups the user belongs to. -/
structure UserCtx where
  id : Nat
  isSuperuser : Bool
  groups : List GroupName
deriving DecidableEq, Repr

/-- `is_admin_or_dispatcher` (src/tickets/views.py lines 31-35). -/
def is_admin_or_dispatcher (u : UserCtx) : Bool :=
  u.isSuperuser || u.groups.contains .admin || u.groups.contains .dispatcher

/-- `is_technician` (src/tickets/views.py lines 38-39). -/
def is_technician (u : UserCtx) : Bool :=
  u.groups.contains .technician

/-- `get_user_role` (src/tickets/views.py lines 42-49). -/
def get_user_role (u : UserCtx) : Role :=
  if u.isSuperuser || u.groups.contains .admin then .admin
  else if u.groups.contains .dispatcher then .dispatcher
  else if u.groups.contains .technician then .technician
  else .reporter

/-- The role-based scoping of `TicketListView.get_queryset`
(src/tickets/views.py lines 127-135), before the optional secondary
filters; the same scoping is used by `TicketDetailView.get_queryset`
(lines 235-242), the CSV export, the kanban board and the search view. -/
def visible_tickets (u : UserCtx) (db : List Tickets) : List Tickets :=
  if is_admin_or_dispatcher u then db
  else if is_technician u then db.filter (fun t => t.technician == some u.id)
  else db.filter (fun t => t.reporter == some u.id)

/-- Response outcome of a view, at the level the spec talks about. -/
inductive Resp where
  | ok
  | notFound
  | forbidden
deriving DecidableEq, Repr

/-- Primary-key lookup in a queryset. -/
def find_ticket (db : List Tickets) (pk : Nat) : Option Tickets :=
  db.find? (fun t => t.id == pk)

/-- `TicketDetailView` object resolution: the detail view looks the pk
up in the scoped queryset of `TicketDetailView.get_queryset`
(src/tickets/views.py lines 235-242), so a missing or out-of-scope
ticket is a 404. -/
def ticket_detail (u : UserCtx) (db : List Tickets) (pk : Nat) : Resp :=
  match find_ticket (visible_tickets u db) pk with
  | some _ => .ok
  | none => .notFound

/-- The access-control outcome of `add_comment` (src/tickets/views.py
lines 496-523): `get_object_or_404` on the unfiltered ticket set, then
`PermissionDenied` when a non-admin technician is not the assignee or a
non-admin non-technician is not the reporter. -/
def add_comment (u : UserCtx) (db : List Tickets) (pk : Nat) : Resp :=
  match find_ticket db pk with
  | none => .notFound
  | some t =>
    if is_admin_or_dispatcher u = false then
      if is_technician u = true ∧ t.technician ≠ some u.id then .forbidden
      else if is_technician u = false ∧ t.reporter ≠ some u.id then .forbidden
      else .ok
    else .ok

/-- The access-control outcome of `assign_ticket` (src/tickets/views.py
lines 426-430): `get_object_or_404` on the unfiltered ticket set, then
`PermissionDenied` unless the user is admin or dispatcher. -/
def assign_ticket (u : UserCtx) (db : List Tickets) (pk : Nat) : Resp :=
  match find_ticket db pk with
  | none => .notFound
  | some _ => if is_admin_or_dispatcher u = true then .ok else .forbidden

/-- The access-control outcome of `start_ticket` (src/tickets/views.py
lines 455-459): `get_object_or_404` on the unfiltered ticket set, then
`PermissionDenied` unless the user is admin/dispatcher or the technician
of the ticket. -/
def start_ticket (u : UserCtx) (db : List Tickets) (pk : Nat) : Resp :=
  match find_ticket db pk with
  | none => .notFound
  | some t =>
    if is_admin_or_dispatcher u = true ∨ t.technician = some u.id then .ok else .forbidden

/-- The access-control outcome of `close_ticket` (src/tickets/views.py
lines 471-475), identical in shape to `start_ticket`. -/
def close_ticket (u : UserCtx) (db : List Tickets) (pk : Nat) : Resp :=
  match find_ticket db pk with
  | none => .notFound
  | some t =>
    if is_admin_or_dispatcher u = true ∨ t.technician = some u.id then .ok else .forbidden

/-- A freshly created ticket (`TicketCreateView.form_valid`,
src/tickets/views.py lines 369-380): status defaults to `new`,
`closed_at` and `technician` are unset. -/
def mkTicket (id : Nat) (reporter : Option Nat) (dueDate : Option Int)
    (createdAt : Int) : Tickets :=
  { id := id, reporter := reporter, technician := none, dueDate := dueDate,
    createdAt := createdAt, status := .new, closedAt := none }

/-- The `created` history row appended by `TicketCreateView.form_valid`. -/
def createdEntry (changedBy : Option Nat) : HistoryEntry :=
  { action := .created, changedBy := changedBy, oldStatus := none, newStatus := some .new }

/-- States (ticket row together with its audit trail) reachable from a
freshly created ticket through the mutating operations of the source.
The predicate `bs` says which values of the `bypass_validation` flag are
available; the superuser direct edit (`admin_update`) counts as a
bypassing path. -/
inductive Reach (bs : Bool → Prop) : Tickets → List HistoryEntry → Prop where
  | init (id : Nat) (reporter : Option Nat) (dueDate : Option Int) (createdAt : Int)
      (cb : Option Nat) :
      Reach bs (mkTicket id reporter dueDate createdAt) [createdEntry cb]
  | chg {t h} (ns cb now b) : Reach bs t h → bs b →
      Reach bs (change_status t h ns cb now b).ticket (change_status t h ns cb now b).hist
  | asg {t h} (tech cb now b) : Reach bs t h → bs b →
      Reach bs (assign t h tech cb now b).ticket (assign t h tech cb now b).hist
  | stw {t h} (cb now b) : Reach bs t h → bs b →
      Reach bs (start_work t h cb now b).ticket (start_work t h cb now b).hist
  | cls {t h} (cb now b) : Reach bs t h → bs b →
      Reach bs (close t h cb now b).ticket (close t h cb now b).hist
  | adm {t h} (ns ntech ndd actor now) : Reach bs t h → bs true →
      Reach bs (admin_update t h ns ntech ndd actor now).ticket
               (admin_update t h ns ntech ndd actor now).hist

/-- No status appears among its own allowed transition targets. -/
lemma self_not_allowed (s : Status) : s ∉ ALLOWED_TRANSITIONS s := by
  cases s <;> decide

/-- A rejected `change_status` call returns the input state with the
`invalidTransition` error. -/
lemma change_status_not_allowed {t : Tickets} {h : List HistoryEntry} {ns : Status}
    (cb : Option Nat) (now : Int) (hns : ns ∉ ALLOWED_TRANSITIONS t.status) :
    change_status t h ns cb now false =
      { err := some (.invalidTransition t.status ns), ticket := t, hist := h } := by
  unfold change_status
  rw [if_pos ⟨rfl, hns⟩]

/-- `change_status` reports an error only on its rejection branch, where
the state is returned unchanged. -/
lemma change_status_err_shape {t : Tickets} {h : List HistoryEntry} {ns : Status}
    {cb : Option Nat} {now : Int} {b : Bool} {e : TicketError}
    (he : (change_status t h ns cb now b).err = some e) :
    change_status t h ns cb now b = { err := some e, ticket := t, hist := h } := by
  unfold change_status at he ⊢
  split at he
  · simp only [Option.some.injEq] at he
    rw [← he]
    rw [if_pos (by assumption)]
  · simp at he

/-- The ticket produced by an accepted `change_status` call: the new
status, with `closed_at` stamped exactly when closing a ticket whose
`closed_at` was unset. -/
lemma change_status_ok_ticket {t : Tickets} {h : List HistoryEntry}
    {ns : Status} {cb : Option Nat} {now : Int} {b : Bool}
    (hcond : ¬(b = false ∧ ns ∉ ALLOWED_TRANSITIONS t.status)) :
    (change_status t h ns cb now b).ticket =
      if ns = Status.closed ∧ t.closedAt = none
      then { t with status := ns, closedAt := some now }
      else { t with status := ns } := by
  unfold change_status
  rw [if_neg hcond]

/-- A non-bypassing `change_status` call preserves the invariant that
`closed_at` is set exactly on closed tickets. -/
lemma change_status_false_inv {t : Tickets} {h : List HistoryEntry}
    (ns : Status) (cb : Option Nat) (now : Int)
    (hinv : t.closedAt ≠ none ↔ t.status = Status.closed) :
    ((change_status t h ns cb now false).ticket.closedAt ≠ none ↔
      (change_status t h ns cb now false).ticket.status = Status.closed) := by
  by_cases hmem : ns ∈ ALLOWED_TRANSITIONS t.status
  · rw [change_status_ok_ticket (fun hc => hc.2 hmem)]
    have hst : t.status ≠ Status.closed := by
      intro hcl
      rw [hcl] at hmem
      simp [ALLOWED_TRANSITIONS] at hmem
    have hca : t.closedAt = none := by
      by_contra hne
      exact hst (hinv.mp hne)
    by_cases hns : ns = Status.closed
    · rw [if_pos ⟨hns, hca⟩]
      simp [hns]
    · rw [if_neg (fun hc => hns hc.1)]
      simp [hns, hca]
  · unfold change_status
    rw [if_pos ⟨rfl, hmem⟩]
    simpa using hinv

/-- `change_status` never overwrites an already-set `closed_at`. -/
lemma change_status_closedAt_mono {t : Tickets} {h : List HistoryEntry}
    {ns : Status} {cb : Option Nat} {now : Int} {b : Bool} {c : Int}
    (hc : t.closedAt = some c) :
    (change_status t h ns cb now b).ticket.closedAt = some c := by
  by_cases hcond : (b = false ∧ ns ∉ ALLOWED_TRANSITIONS t.status)
  · unfold change_status
    rw [if_pos hcond]
    exact hc
  · rw [change_status_ok_ticket hcond]
    rw [if_neg (fun hc2 => by rw [hc2.2] at hc; cases hc)]
    exact hc

/-- `assign` (without bypass) preserves the `closed_at` invariant. -/
lemma assign_false_inv {t : Tickets} {h : List HistoryEntry}
    (tech cb : Option Nat) (now : Int)
    (hinv : t.closedAt ≠ none ↔ t.status = Status.closed) :
    ((assign t h tech cb now false).ticket.closedAt ≠ none ↔
      (assign t h tech cb now false).ticket.status = Status.closed) := by
  match tech with
  | none => exact hinv
  | some tech =>
    unfold assign
    cases hq : (change_status { t with technician := some tech } h Status.assigned cb now false).err with
    | some e =>
      simp only [hq]
      exact hinv
    | none =>
      simp only [hq]
      exact @change_status_false_inv { t with technician := some tech } h
        Status.assigned cb now hinv

end Helpdesk

open Helpdesk

/-- C1: a `change_status` call whose target equals the current status is
not a successful no-op without bypass: self-loops are absent from the
transition table, so it is rejected with `invalidTransition` and the
state is unchanged.  With bypass it does succeed, appends no history
row, and (whenever a closed ticket has its `closed_at` set) leaves every
field unchanged. -/
theorem c1_self_transition :
    (∀ (t : Tickets) (h : List HistoryEntry) (cb : Option Nat) (now : Int),
        change_status t h t.status cb now false =
          { err := some (.invalidTransition t.status t.status), ticket := t, hist := h })
  ∧ (∀ (t : Tickets) (h : List HistoryEntry) (cb : Option Nat) (now : Int),
        (change_status t h t.status cb now true).err = none
      ∧ (change_status t h t.status cb now true).hist = h
      ∧ ((t.status = Status.closed → t.closedAt ≠ none) →
          (change_status t h t.status cb now true).ticket = t)) := by
  constructor
  · intro t h cb now
    exact change_status_not_allowed cb now (self_not_allowed t.status)
  · intro t h cb now
    unfold change_status
    rw [if_neg (by simp)]
    refine ⟨rfl, by simp, ?_⟩
    intro hca
    by_cases hcl : (t.status = Status.closed ∧ t.closedAt = none)
    · exact absurd hcl.2 (hca hcl.1)
    · simp [hcl]

/-- C1 counterexample: on a fresh ticket in state `new`, a same-status
`change_status` call without bypass fails instead of succeeding as a
no-op. -/
theorem c1_counterexample :
    (change_status (mkTicket 0 (some 1) none 0) []
        (mkTicket 0 (some 1) none 0).status none 0 false).err
      = some (.invalidTransition Status.new Status.new) := by decide

theorem c1_witness :
    change_status (mkTicket 0 (some 1) none 0) [] (mkTicket 0 (some 1) none 0).status none 2 false
        = { err := some (.invalidTransition Status.new Status.new),
            ticket := mkTicket 0 (some 1) none 0, hist := [] }
  ∧ ((change_status (mkTicket 0 (some 1) none 0) [] (mkTicket 0 (some 1) none 0).status none 2 true).err = none
  ∧ (change_status (mkTicket 0 (some 1) none 0) [] (mkTicket 0 (some 1) none 0).status none 2 true).ticket
      = mkTicket 0 (some 1) none 0) :=
  ⟨c1_self_transition.1 _ [] none 2,
   (c1_self_transition.2 _ [] none 2).1,
   (c1_self_transition.2 _ [] none 2).2.2 (by decide)⟩

/-- C2: a `(from, to)` pair outside the transition table makes
`change_status` (without bypass) fail with `invalidTransition`, and any
rejected lifecycle operation returns the ticket row and the audit trail
unchanged. -/
theorem c2_rejected_unchanged :
    (∀ (t : Tickets) (h : List HistoryEntry) (ns : Status) (cb : Option Nat) (now : Int),
        ns ∉ ALLOWED_TRANSITIONS t.status →
        change_status t h ns cb now false =
          { err := some (.invalidTransition t.status ns), ticket := t, hist := h })
  ∧ (∀ (t : Tickets) (h : List HistoryEntry) (ns : Status) (cb : Option Nat) (now : Int)
        (b : Bool) (e : TicketError),
        (change_status t h ns cb now b).err = some e →
        (change_status t h ns cb now b).ticket = t ∧ (change_status t h ns cb now b).hist = h)
  ∧ (∀ (t : Tickets) (h : List HistoryEntry) (tech : Option Nat) (cb : Option Nat) (now : Int)
        (b : Bool) (e : TicketError),
        (assign t h tech cb now b).err = some e →
        (assign t h tech cb now b).ticket = t ∧ (assign t h tech cb now b).hist = h)
  ∧ (∀ (t : Tickets) (h : List HistoryEntry) (cb : Option Nat) (now : Int)
        (b : Bool) (e : TicketError),
        (start_work t h cb now b).err = some e →
        (start_work t h cb now b).ticket = t ∧ (start_work t h cb now b).hist = h)
  ∧ (∀ (t : Tickets) (h : List HistoryEntry) (cb : Option Nat) (now : Int)
        (b : Bool) (e : TicketError),
        (close t h cb now b).err = some e →
        (close t h cb now b).ticket = t ∧ (close t h cb now b).hist = h) := by
  refine ⟨?_, ?_, ?_, ?_, ?_⟩
  · intro t h ns cb now hns
    exact change_status_not_allowed cb now hns
  · intro t h ns cb now b e he
    rw [change_status_err_shape he]
    exact ⟨rfl, rfl⟩
  · intro t h tech cb now b e he
    match tech with
    | none => exact ⟨rfl, rfl⟩
    | some tech =>
      unfold assign at he ⊢
      cases hq : (change_status { t with technician := some tech } h Status.assigned cb now b).err with
      | some e2 =>
        simp [hq]
      | none =>
        simp only [hq] at he
        simp at he
  · intro t h cb now b e he
    unfold start_work at he ⊢
    by_cases ht : t.technician = none
    · rw [if_pos ht]
      exact ⟨rfl, rfl⟩
    · rw [if_neg ht] at he ⊢
      rw [change_status_err_shape he]
      exact ⟨rfl, rfl⟩
  · intro t h cb now b e he
    unfold close at he ⊢
    rw [change_status_err_shape he]
    exact ⟨rfl, rfl⟩

theorem c2_witness :
    (Status.inProgress ∉ ALLOWED_TRANSITIONS (mkTicket 0 (some 1) none 0).status
  ∧ change_status (mkTicket 0 (some 1) none 0) [] Status.inProgress none 4 false
        = { err := some (.invalidTransition Status.new Status.inProgress),
            ticket := mkTicket 0 (some 1) none 0, hist := [] })
  ∧ ((start_work (mkTicket 0 (some 1) none 0) [] none 4 false).err
        = some TicketError.noTechnicianAssigned
  ∧ (start_work (mkTicket 0 (some 1) none 0) [] none 4 false).ticket = mkTicket 0 (some 1) none 0
  ∧ (start_work (mkTicket 0 (some 1) none 0) [] none 4 false).hist = []) :=
  ⟨⟨by decide, c2_rejected_unchanged.1 _ [] _ none 4 (by decide)⟩,
   by decide,
   c2_rejected_unchanged.2.2.2.1 _ [] none 4 false TicketError.noTechnicianAssigned (by decide)⟩

/-- C3 counterexample: via a bypassing status change a closed ticket is
reachable back in state `new` while `closed_at` stays set, so the
invariant "closed_at is non-null iff status is closed" fails on the
reachable states of the full operation set. -/
theorem c3_counterexample :
    Reach (fun _ => True)
      (⟨0, some 1, none, none, 0, .new, some 5⟩ : Tickets)
      [createdEntry none,
       ⟨.statusChanged, none, some .new, some .closed⟩,
       ⟨.statusChanged, none, some .closed, some .new⟩]
  ∧ (⟨0, some 1, none, none, 0, .new, some 5⟩ : Tickets).closedAt ≠ none
  ∧ (⟨0, some 1, none, none, 0, .new, some 5⟩ : Tickets).status ≠ Status.closed := by
  refine ⟨?_, by decide, by decide⟩
  have h0 : Reach (fun _ => True) (mkTicket 0 (some 1) none 0) [createdEntry none] :=
    Reach.init 0 (some 1) none 0 none
  have h1 := Reach.cls none 5 false h0 trivial
  have h2 := Reach.chg Status.new none 7 true h1 trivial
  exact h2

/-- C3 amended: on every state reachable without bypass (and without the
superuser direct edit), `closed_at` is non-null exactly when the status
is `closed`; and under every operation, bypassing or not, an already-set
`closed_at` never changes. -/
theorem c3_closed_at_invariant :
    (∀ (t : Tickets) (h : List HistoryEntry),
        Reach (fun b => b = false) t h → (t.closedAt ≠ none ↔ t.status = Status.closed))
  ∧ (∀ (t : Tickets) (h : List HistoryEntry) (ns : Status) (cb : Option Nat) (now : Int)
        (b : Bool) (c : Int), t.closedAt = some c →
        (change_status t h ns cb now b).ticket.closedAt = some c)
  ∧ (∀ (t : Tickets) (h : List HistoryEntry) (tech cb : Option Nat) (now : Int)
        (b : Bool) (c : Int), t.closedAt = some c →
        (assign t h tech cb now b).ticket.closedAt = some c)
  ∧ (∀ (t : Tickets) (h : List HistoryEntry) (cb : Option Nat) (now : Int)
        (b : Bool) (c : Int), t.closedAt = some c →
        (start_work t h cb now b).ticket.closedAt = some c)
  ∧ (∀ (t : Tickets) (h : List HistoryEntry) (cb : Option Nat) (now : Int)
        (b : Bool) (c : Int), t.closedAt = some c →
        (close t h cb now b).ticket.closedAt = some c)
  ∧ (∀ (t : Tickets) (h : List HistoryEntry) (ns : Status) (ntech : Option Nat)
        (ndd : Option Int) (actor : Option Nat) (now : Int) (c : Int),
        t.closedAt = some c →
        (admin_update t h ns ntech ndd actor now).ticket.closedAt = some c) := by
  refine ⟨?_, ?_, ?_, ?_, ?_, ?_⟩
  · intro t h hreach
    induction hreach with
    | init id rep dd ca cb => simp [mkTicket]
    | chg ns cb now b hr hb ih =>
      subst hb
      exact change_status_false_inv ns cb now ih
    | asg tech cb now b hr hb ih =>
      subst hb
      exact assign_false_inv tech cb now ih
    | @stw t h cb now b hr hb ih =>
      subst hb
      unfold start_work
      by_cases ht : t.technician = none
      · rw [if_pos ht]
        exact ih
      · rw [if_neg ht]
        exact change_status_false_inv Status.inProgress cb now ih
    | cls cb now b hr hb ih =>
      subst hb
      exact change_status_false_inv Status.closed cb now ih
    | adm ns ntech ndd actor now hr hb ih =>
      exact absurd hb (by simp)
  · intro t h ns cb now b c hc
    exact change_status_closedAt_mono hc
  · intro t h tech cb now b c hc
    match tech with
    | none => exact hc
    | some tech =>
      unfold assign
      cases hq : (change_status { t with technician := some tech } h Status.assigned cb now b).err with
      | some e =>
        simp only [hq]
        exact hc
      | none =>
        simp only [hq]
        exact @change_status_closedAt_mono { t with technician := some tech } h
          Status.assigned cb now b c hc
  · intro t h cb now b c hc
    unfold start_work
    by_cases ht : t.technician = none
    · rw [if_pos ht]
      exact hc
    · rw [if_neg ht]
      exact change_status_closedAt_mono hc
  · intro t h cb now b c hc
    exact change_status_closedAt_mono hc
  · intro t h ns ntech ndd actor now c hc
    unfold admin_update
    simp only
    rw [if_neg (fun hc2 => by rw [hc2.2] at hc; cases hc)]
    exact hc

theorem c3_witness :
    ((mkTicket 0 (some 1) none 0).closedAt ≠ none ↔
        (mkTicket 0 (some 1) none 0).status = Status.closed)
  ∧ (change_status (⟨0, some 1, none, none, 0, .closed, some 3⟩ : Tickets) [] .new none 9
        true).ticket.closedAt = some 3 :=
  ⟨c3_closed_at_invariant.1 _ _ (Reach.init 0 (some 1) none 0 none),
   c3_closed_at_invariant.2.1 _ [] .new none 9 true 3 rfl⟩

/-- C4: an accepted status change towards a different status appends
exactly one `status_changed` history row whose old and new status match
the transition, and a successful `assign` from state `new` appends
exactly two rows: that `status_changed` row followed by one `assigned`
row. -/
theorem c4_audit_entries :
    (∀ (t : Tickets) (h : List HistoryEntry) (ns : Status) (cb : Option Nat) (now : Int)
        (b : Bool),
        (change_status t h ns cb now b).err = none → ns ≠ t.status →
        (change_status t h ns cb now b).hist =
          h ++ [{ action := .statusChanged, changedBy := cb,
                  oldStatus := some t.status, newStatus := some ns }])
  ∧ (∀ (t : Tickets) (h : List HistoryEntry) (tech : Nat) (cb : Option Nat) (now : Int),
        t.status = Status.new →
        assign t h (some tech) cb now false =
          { err := none,
            ticket := { t with technician := some tech, status := Status.assigned },
            hist := h ++ [{ action := .statusChanged, changedBy := cb,
                            oldStatus := some Status.new, newStatus := some Status.assigned },
                          { action := .assigned, changedBy := cb,
                            oldStatus := none, newStatus := none }] }) := by
  constructor
  · intro t h ns cb now b hok hne
    unfold change_status at hok ⊢
    by_cases hcond : (b = false ∧ ns ∉ ALLOWED_TRANSITIONS t.status)
    · rw [if_pos hcond] at hok
      simp at hok
    · rw [if_neg hcond]
      simp only
      rw [if_pos (Ne.symm hne)]
  · intro t h tech cb now ht
    unfold assign
    simp only
    have hmem : Status.assigned ∈ ALLOWED_TRANSITIONS t.status := by
      rw [ht]; decide
    have hne : (Status.assigned = t.status) = False := by
      rw [ht]; simp
    unfold change_status
    rw [if_neg (by intro hc; exact hc.2 hmem)]
    simp only
    rw [if_neg (by simp)]
    rw [if_pos (by rw [ht]; decide)]
    simp only [ht]
    rw [List.append_assoc]
    rfl

theorem c4_witness :
    ((change_status (mkTicket 0 (some 1) none 0) [] Status.closed none 6 false).err = none
  ∧ Status.closed ≠ (mkTicket 0 (some 1) none 0).status
  ∧ (change_status (mkTicket 0 (some 1) none 0) [] Status.closed none 6 false).hist
      = [{ action := .statusChanged, changedBy := none,
           oldStatus := some Status.new, newStatus := some Status.closed }])
  ∧ ((mkTicket 0 (some 1) none 0).status = Status.new
  ∧ assign (mkTicket 0 (some 1) none 0) [] (some 9) none 6 false
      = { err := none,
          ticket := { mkTicket 0 (some 1) none 0 with
                      technician := some 9, status := Status.assigned },
          hist := [{ action := .statusChanged, changedBy := none,
                     oldStatus := some Status.new, newStatus := some Status.assigned },
                   { action := .assigned, changedBy := none,
                     oldStatus := none, newStatus := none }] }) :=
  ⟨⟨by decide, by decide,
    c4_audit_entries.1 _ [] Status.closed none 6 false (by decide) (by decide)⟩,
   rfl, c4_audit_entries.2 _ [] 9 none 6 rfl⟩

/-- C5: `assign` with an empty technician fails with
`missingTechnician`, and `start_work` on a ticket with no technician
fails with `noTechnicianAssigned`; both leave the ticket and the audit
trail unchanged. -/
theorem c5_preconditions :
    (∀ (t : Tickets) (h : List HistoryEntry) (cb : Option Nat) (now : Int) (b : Bool),
        assign t h none cb now b = { err := some .missingTechnician, ticket := t, hist := h })
  ∧ (∀ (t : Tickets) (h : List HistoryEntry) (cb : Option Nat) (now : Int) (b : Bool),
        t.technician = none →
        start_work t h cb now b =
          { err := some .noTechnicianAssigned, ticket := t, hist := h }) := by
  constructor
  · intro t h cb now b
    rfl
  · intro t h cb now b ht
    unfold start_work
    rw [if_pos ht]

theorem c5_witness :
    assign (mkTicket 0 (some 1) none 0) [] none none 3 false
        = { err := some .missingTechnician, ticket := mkTicket 0 (some 1) none 0, hist := [] }
  ∧ ((mkTicket 0 (some 1) none 0).technician = none
  ∧ start_work (mkTicket 0 (some 1) none 0) [] none 3 false
        = { err := some .noTechnicianAssigned, ticket := mkTicket 0 (some 1) none 0, hist := [] }) :=
  ⟨c5_preconditions.1 _ [] none 3 false,
   rfl, c5_preconditions.2 _ [] none 3 false rfl⟩

/-- C6 counterexample: a reporter-role actor and a ticket reported by
someone else (hence a ticket outside the visibility scope of the actor); the comment
endpoint answers `forbidden`, not `notFound`. -/
theorem c6_counterexample :
    find_ticket
        (visible_tickets { id := 1, isSuperuser := false, groups := [] }
          [{ id := 1, reporter := some 2, technician := none, dueDate := none,
             createdAt := 0, status := .new, closedAt := none }]) 1 = none
  ∧ add_comment { id := 1, isSuperuser := false, groups := [] }
        [{ id := 1, reporter := some 2, technician := none, dueDate := none,
           createdAt := 0, status := .new, closedAt := none }] 1 = Resp.forbidden := by
  exact ⟨by decide, by decide⟩

/-- C6 amended: the detail view answers `notFound` for any ticket absent
from the scoped queryset (nonexistent or out of scope); the comment,
assign, start and close endpoints answer `notFound` only for a
nonexistent id, and answer `forbidden` for an existing ticket when their
permission check fails — for a non-admin/dispatcher caller that is not
in the required relationship to the ticket. -/
theorem c6_scope :
    (∀ (u : UserCtx) (db : List Tickets) (pk : Nat),
        find_ticket (visible_tickets u db) pk = none → ticket_detail u db pk = .notFound)
  ∧ (∀ (u : UserCtx) (db : List Tickets) (pk : Nat),
        find_ticket db pk = none →
        add_comment u db pk = .notFound ∧ assign_ticket u db pk = .notFound ∧
        start_ticket u db pk = .notFound ∧ close_ticket u db pk = .notFound)
  ∧ (∀ (u : UserCtx) (db : List Tickets) (pk : Nat) (t : Tickets),
        find_ticket db pk = some t → is_admin_or_dispatcher u = false →
        ((is_technician u = true ∧ t.technician ≠ some u.id) ∨
         (is_technician u = false ∧ t.reporter ≠ some u.id)) →
        add_comment u db pk = .forbidden)
  ∧ (∀ (u : UserCtx) (db : List Tickets) (pk : Nat) (t : Tickets),
        find_ticket db pk = some t → is_admin_or_dispatcher u = false →
        assign_ticket u db pk = .forbidden)
  ∧ (∀ (u : UserCtx) (db : List Tickets) (pk : Nat) (t : Tickets),
        find_ticket db pk = some t → is_admin_or_dispatcher u = false →
        t.technician ≠ some u.id →
        start_ticket u db pk = .forbidden ∧ close_ticket u db pk = .forbidden) := by
  refine ⟨?_, ?_, ?_, ?_, ?_⟩
  · intro u db pk hf
    unfold ticket_detail
    rw [hf]
  · intro u db pk hf
    unfold add_comment assign_ticket start_ticket close_ticket
    rw [hf]
    exact ⟨rfl, rfl, rfl, rfl⟩
  · intro u db pk t hf hadm hrel
    unfold add_comment
    rw [hf]
    simp only [hadm]
    rcases hrel with ⟨htec, hne⟩ | ⟨htec, hne⟩
    · simp [htec, hne]
    · simp [htec, hne]
  · intro u db pk t hf hadm
    unfold assign_ticket
    rw [hf]
    simp [hadm]
  · intro u db pk t hf hadm hne
    unfold start_ticket close_ticket
    rw [hf]
    constructor <;> simp [hadm, hne]

theorem c6_witness :
    (ticket_detail { id := 1, isSuperuser := false, groups := [] }
        [mkTicket 1 (some 2) none 0] 1 = Resp.notFound)
  ∧ (add_comment { id := 1, isSuperuser := false, groups := [] } [] 7 = Resp.notFound)
  ∧ (add_comment { id := 1, isSuperuser := false, groups := [] }
        [mkTicket 1 (some 2) none 0] 1 = Resp.forbidden)
  ∧ (assign_ticket { id := 1, isSuperuser := false, groups := [] }
        [mkTicket 1 (some 2) none 0] 1 = Resp.forbidden)
  ∧ (start_ticket { id := 1, isSuperuser := false, groups := [] }
        [mkTicket 1 (some 2) none 0] 1 = Resp.forbidden) :=
  ⟨c6_scope.1 _ _ 1 (by decide),
   (c6_scope.2.1 _ [] 7 (by decide)).1,
   c6_scope.2.2.1 _ _ 1 (mkTicket 1 (some 2) none 0) (by decide) (by decide)
     (Or.inr ⟨by decide, by decide⟩),
   c6_scope.2.2.2.1 _ _ 1 (mkTicket 1 (some 2) none 0) (by decide) (by decide),
   (c6_scope.2.2.2.2 _ _ 1 (mkTicket 1 (some 2) none 0) (by decide) (by decide)
     (by decide)).1⟩

/-- C7: under the listing scope, a reporter-role user only ever sees
tickets they reported, a technician-role user only tickets assigned to
them, and an admin- or dispatcher-role user sees the whole ticket set. -/
theorem c7_visibility (u : UserCtx) (db : List Tickets) :
    (get_user_role u = Role.reporter →
        ∀ t ∈ visible_tickets u db, t.reporter = some u.id)
  ∧ (get_user_role u = Role.technician →
        ∀ t ∈ visible_tickets u db, t.technician = some u.id)
  ∧ (get_user_role u = Role.admin ∨ get_user_role u = Role.dispatcher →
        visible_tickets u db = db) := by
  unfold get_user_role visible_tickets is_admin_or_dispatcher is_technician
  cases hsu : u.isSuperuser <;>
    cases hadm : u.groups.contains GroupName.admin <;>
      cases hdsp : u.groups.contains GroupName.dispatcher <;>
        cases htec : u.groups.contains GroupName.technician <;>
          simp_all [List.mem_filter]

theorem c7_witness :
    (get_user_role { id := 1, isSuperuser := false, groups := [] } = Role.reporter
  ∧ ∀ t ∈ visible_tickets { id := 1, isSuperuser := false, groups := [] }
        [mkTicket 0 (some 1) none 0, mkTicket 1 (some 2) none 0],
      t.reporter = some 1)
  ∧ (get_user_role { id := 1, isSuperuser := false, groups := [GroupName.dispatcher] }
        = Role.dispatcher
  ∧ visible_tickets { id := 1, isSuperuser := false, groups := [GroupName.dispatcher] }
        [mkTicket 0 (some 2) none 0]
      = [mkTicket 0 (some 2) none 0]) :=
  ⟨⟨rfl, (c7_visibility _ _).1 rfl⟩,
   rfl, (c7_visibility _ _).2.2 (Or.inr rfl)⟩

/-- C8: `is_overdue(ticket, now)` is true exactly when the due date is
set, the status is not `closed`, and `now` is past the due date; in
particular it is false for every closed ticket. -/
theorem c8_is_overdue (t : Tickets) (now : Int) :
    is_overdue t now = true ↔
      ∃ due, t.dueDate = some due ∧ t.status ≠ Status.closed ∧ due < now := by
  unfold is_overdue
  cases hd : t.dueDate with
  | none => simp
  | some due =>
    by_cases hc : t.status = Status.closed
    · simp [hc]
    · simp [hc]

/-- C9 counterexample: an open ticket whose due date lies before its
creation instant; the detail view computes no SLA percent, while the
spec formula takes the value -100 there, so the claimed equality fails. -/
theorem c9_counterexample :
    sla_percent (⟨0, some 1, none, some 50, 100, .new, none⟩ : Tickets) 150 = none
  ∧ slaElapsedPercentSpec (⟨0, some 1, none, some 50, 100, .new, none⟩ : Tickets) 150
      = some (-100) := by
  exact ⟨by decide, by decide⟩

/-- C9 amended: for an open ticket whose due date is strictly after its
creation instant, the detail view computes exactly the spec formula
`min(100, round(100 * (now - created_at) / (due_date - created_at)))`;
no value is produced when the due date is unset, the ticket is closed,
or the due date is not after the creation instant. -/
theorem c9_sla_formula :
    (∀ (t : Tickets) (now due : Int),
        t.dueDate = some due → t.status ≠ Status.closed → t.createdAt < due →
        sla_percent t now = slaElapsedPercentSpec t now)
  ∧ (∀ (t : Tickets) (now due : Int),
        t.dueDate = some due → t.status ≠ Status.closed → t.createdAt < due →
        sla_percent t now =
          some (min 100 (round_half_even (100 * (now - t.createdAt)) (due - t.createdAt))))
  ∧ (∀ (t : Tickets) (now : Int), t.dueDate = none → sla_percent t now = none)
  ∧ (∀ (t : Tickets) (now : Int), t.status = Status.closed → sla_percent t now = none)
  ∧ (∀ (t : Tickets) (now due : Int),
        t.dueDate = some due → due ≤ t.createdAt → sla_percent t now = none) := by
  have key : ∀ (t : Tickets) (now due : Int),
      t.dueDate = some due → t.status ≠ Status.closed → t.createdAt < due →
      sla_percent t now =
        some (min 100 (round_half_even (100 * (now - t.createdAt)) (due - t.createdAt))) := by
    intro t now due hdue hopen hlt
    unfold sla_percent
    rw [hdue]
    simp only [hopen, if_true, ne_eq, not_false_eq_true, if_pos]
    rw [if_pos (show due - t.createdAt > 0 by omega)]
    rw [Int.mul_comm]
  refine ⟨?_, key, ?_, ?_, ?_⟩
  · intro t now due hdue hopen hlt
    rw [key t now due hdue hopen hlt]
    simp only [slaElapsedPercentSpec, hdue]
    rw [if_neg hopen]
  · intro t now hdue
    unfold sla_percent
    rw [hdue]
  · intro t now hcl
    unfold sla_percent
    cases hd : t.dueDate with
    | none => rfl
    | some due => simp [hcl]
  · intro t now due hdue hle
    by_cases hcl : t.status = Status.closed
    · unfold sla_percent
      rw [hdue]
      simp [hcl]
    · have hopen : t.status ≠ Status.closed := hcl
      unfold sla_percent
      rw [hdue]
      simp only [hopen, if_true, ne_eq, not_false_eq_true, if_pos]
      rw [if_neg (show ¬(due - t.createdAt > 0) by omega)]

theorem c9_witness :
    ((mkTicket 0 (some 1) (some 100) 0).dueDate = some 100
  ∧ (mkTicket 0 (some 1) (some 100) 0).status ≠ Status.closed
  ∧ (mkTicket 0 (some 1) (some 100) 0).createdAt < 100
  ∧ sla_percent (mkTicket 0 (some 1) (some 100) 0) 50
      = slaElapsedPercentSpec (mkTicket 0 (some 1) (some 100) 0) 50
  ∧ sla_percent (mkTicket 0 (some 1) (some 100) 0) 50 = some 50)
  ∧ sla_percent (mkTicket 0 (some 1) none 0) 50 = none :=
  ⟨⟨rfl, by decide, by decide,
    (c9_sla_formula.1 _ 50 100 rfl (by decide) (by decide)),
    by rw [c9_sla_formula.2.1 _ 50 100 rfl (by decide) (by decide)]; decide⟩,
   c9_sla_formula.2.2.1 _ 50 rfl⟩

/-- C10: for an open ticket whose due date is not after its creation
instant, the positivity guard on the SLA window fails and the detail
view computes no SLA percent. -/
theorem c10_no_div_by_zero (t : Tickets) (now due : Int)
    (hdue : t.dueDate = some due) (hopen : t.status ≠ Status.closed)
    (hle : due ≤ t.createdAt) :
    sla_percent t now = none := by
  unfold sla_percent
  rw [hdue]
  simp only [hopen, if_true, ne_eq, not_false_eq_true, if_pos]
  rw [if_neg (by omega)]

theorem c10_witness :
    (mkTicket 0 (some 1) (some 0) 10).dueDate = some 0 ∧
    (mkTicket 0 (some 1) (some 0) 10).status ≠ Status.closed ∧
    (0 : Int) ≤ (mkTicket 0 (some 1) (some 0) 10).createdAt ∧
    sla_percent (mkTicket 0 (some 1) (some 0) 10) 20 = none :=
  ⟨rfl, by decide, by decide, c10_no_div_by_zero _ 20 0 rfl (by decide) (by decide)⟩

